import Mathlib

/-!
Verification development for the `arthur-custom-metrics` repository.

The repository contains synthetic dataset generators
(`data/*/datagen/generate_dataset.py`) and onboarding automation scripts
(`script automation/onboarding/*.py`).  This file gives a shallow embedding
of the generator pipelines and of the relevant script logic, and proves the
behavioural properties claimed for them.

Modelling conventions:
* Python/NumPy floating point values are modelled as rationals (`ℚ`);
  `round`/`np.round` (round-half-even to a number of decimal places),
  `np.clip`, and `.astype(int)` (truncation towards zero) are embedded
  explicitly below.
* Randomness is modelled as an oracle: every call to a NumPy sampler
  (`np.random.lognormal`, `np.random.beta`, ...) reads an explicitly passed
  draw value.  Categorical choices (`np.random.choice` with a probability
  vector) consume a uniform draw and apply the inverse-CDF search that NumPy
  performs.  A fixed seed determines the whole draw family, so determinism
  statements quantify over the draw family.
* `datetime` values advanced hour by hour are modelled as hour counters
  since the Unix epoch; the Gregorian calendar-field extraction used for the
  partition paths and ISO timestamps is implemented below.
* The MD5-plus-UUID formatting applied to transaction id source strings is
  modelled as an arbitrary function parameter `md5uuid : String → String`
  (the code composes `hashlib.md5(...).hexdigest()` and `uuid.UUID`); all
  theorems about transaction ids hold for every such function.
-/

/-- Round-half-even of a rational to an integer, the rounding mode of
Python `round` and `np.round`. -/
def roundHalfEven (x : ℚ) : ℤ :=
  let f := ⌊x⌋
  let r := x - f
  if r < 1 / 2 then f
  else if 1 / 2 < r then f + 1
  else if f % 2 = 0 then f else f + 1

/-- Embedding of Python `round(x, p)` / `np.round(x, p)`. -/
def roundTo (p : ℕ) (x : ℚ) : ℚ :=
  (roundHalfEven (x * 10 ^ p) : ℚ) / 10 ^ p

/-- Embedding of `np.clip(x, lo, hi)` (also used for Python-level
`max lo (min x hi)` chains written with explicit bounds). -/
def npClip {α : Type} [LinearOrder α] (lo hi x : α) : α :=
  min hi (max x lo)

/-- Embedding of NumPy/pandas `.astype(int)` on a float: truncation towards
zero. -/
def truncQ (x : ℚ) : ℤ :=
  if 0 ≤ x then ⌊x⌋ else ⌈x⌉

/-- Inverse-CDF index search performed by `np.random.choice(opts, p=ps)` on
a uniform draw `u`: the first index whose cumulative probability exceeds
`u`. -/
def npChoiceAux (u : ℚ) (acc : ℚ) (i : ℕ) : List ℚ → ℕ
  | [] => i
  | p :: ps => if u < acc + p then i else npChoiceAux u (acc + p) (i + 1) ps

/-- Embedding of `np.random.choice(len(opts), p=ps)`: the selected index. -/
def npChoiceIdx (ps : List ℚ) (u : ℚ) : ℕ :=
  npChoiceAux u 0 0 ps

/-- Embedding of `np.random.choice(opts, p=ps)` driven by a uniform draw. -/
def npChoice {α : Type} (opts : List α) (ps : List ℚ) (u : ℚ) (dflt : α) : α :=
  opts.getD (npChoiceIdx ps u) dflt

/-- Two-digit zero padding, as in the `{x:02d}` format specifier. -/
def pad2 (n : ℕ) : String :=
  if n < 10 then "0" ++ toString n else toString n

/-- Four-digit zero padding, as used by `datetime` for the year. -/
def pad4 (n : ℕ) : String :=
  if n < 10 then "000" ++ toString n
  else if n < 100 then "00" ++ toString n
  else if n < 1000 then "0" ++ toString n
  else toString n

/-- Gregorian calendar fields (year, month, day) of a day count since
1970-01-01, for day counts at or after the epoch (the standard
civil-from-days algorithm, as implemented by Python `datetime`). -/
def civilFromDays (z : ℕ) : ℕ × ℕ × ℕ :=
  let z' := z + 719468
  let era := z' / 146097
  let doe := z' % 146097
  let yoe := (doe - doe / 1460 + doe / 36524 - doe / 146096) / 365
  let y := yoe + era * 400
  let doy := doe - (365 * yoe + yoe / 4 - yoe / 100)
  let mp := (5 * doy + 2) / 153
  let d := doy - (153 * mp + 2) / 5 + 1
  let m := if mp < 10 then mp + 3 else mp - 9
  (if m ≤ 2 then y + 1 else y, m, d)

/-- Calendar fields (year, month, day, hour) of an hour count since the
epoch, the model of a `datetime` value advanced hour by hour. -/
def dtComponents (t : ℕ) : ℕ × ℕ × ℕ × ℕ :=
  let c := civilFromDays (t / 24)
  (c.1, c.2.1, c.2.2, t % 24)

/-- The `YYYY-MM-DD` rendering of a day count (`strftime("%Y-%m-%d")`). -/
def dateString (day : ℕ) : String :=
  let c := civilFromDays day
  pad4 c.1 ++ "-" ++ pad2 c.2.1 ++ "-" ++ pad2 c.2.2

/-- The `datetime.isoformat()` rendering of an hour-aligned UTC `datetime`
value, e.g. `1970-01-01T00:00:00+00:00`. -/
def isoString (t : ℕ) : String :=
  let c := dtComponents t
  pad4 c.1 ++ "-" ++ pad2 c.2.1 ++ "-" ++ pad2 c.2.2.1 ++ "T" ++
    pad2 c.2.2.2 ++ ":00:00+00:00"

/-!
Embedding of `data/binary-classifier-card-fraud/datagen/generate_dataset.py`.

Each per-transaction sampler call reads one component of a `CFDraws`
oracle record; the account/customer id selections (`random.choice` over the
pre-generated id pools) are modelled as oracle-provided strings.  File
system paths are modelled as lists of path components, and the files a run
writes are returned explicitly.
-/

namespace CardFraud

/-- Oracle record holding the per-transaction random draws consumed by the
card-fraud generator, in program order. -/
structure CFDraws where
  segU : ℚ
  chanU : ℚ
  regU : ℚ
  amtRaw : ℚ
  distRaw : ℚ
  mrsRaw : ℚ
  engRaw : ℚ
  tenureRaw : ℕ
  fraudU : ℚ
  fsA : ℚ
  fsB : ℚ
  acctId : String
  custId : String
  deriving DecidableEq

/-- All-zero draw record, used to instantiate theorems on concrete inputs. -/
def cfDrawsZero : CFDraws :=
  ⟨0, 0, 0, 0, 0, 0, 0, 0, 0, 0, 0, "", ""⟩

/-- A generated card-fraud transaction record (one JSON object). -/
structure CFTxn where
  timestamp : String
  txn_id : String
  account_id : String
  customer_id : String
  is_fraud : ℕ
  fraud_score : ℚ
  fraud_pred : ℕ
  rules_engine_flag : ℕ
  risk_rank : ℕ
  customer_segment : String
  channel : String
  region : String
  txn_amount : ℚ
  distance_from_home_km : ℚ
  merchant_risk_score : ℚ
  digital_engagement : ℚ
  tenure_months : ℕ
  deriving DecidableEq

/-- Customer segment selection (15% new, 70% established, 15% small business). -/
def cfSegment (d : CFDraws) : String :=
  npChoice ["new_to_bank", "established", "small_business"]
    [15 / 100, 70 / 100, 15 / 100] d.segU ""

/-- Channel selection (60% ecom, 35% in_store, 5% atm). -/
def cfChannel (d : CFDraws) : String :=
  npChoice ["ecom", "in_store", "atm"] [60 / 100, 35 / 100, 5 / 100] d.chanU ""

/-- Region selection (uniform over four regions). -/
def cfRegion (d : CFDraws) : String :=
  npChoice ["W", "NE", "MW", "S"] [1 / 4, 1 / 4, 1 / 4, 1 / 4] d.regU ""

/-- `txn_amount`: lognormal draw rounded to cents, clamped to [1, 10000]. -/
def cfTxnAmount (d : CFDraws) : ℚ :=
  max 1 (min (roundTo 2 d.amtRaw) 10000)

/-- `distance_from_home`: exponential draw rounded to 2 places, capped at 1000. -/
def cfDistance (d : CFDraws) : ℚ :=
  min (roundTo 2 d.distRaw) 1000

/-- `merchant_risk_score`: beta(2,8) draw rounded to 4 places. -/
def cfMerchantRisk (d : CFDraws) : ℚ :=
  roundTo 4 d.mrsRaw

/-- `digital_engagement`: gamma draw rounded to 2 places, capped at 10. -/
def cfEngagement (d : CFDraws) : ℚ :=
  min (roundTo 2 d.engRaw) 10

/-- The fraud probability construction (lines 124-146 of the source): base
rate 0.05 multiplied by a factor per risk signal, capped at 0.30. -/
def fraud_base_prob (segment : String) (txn_amount distance_from_home
    merchant_risk_score : ℚ) (channel : String) : ℚ :=
  let p0 : ℚ := 5 / 100
  let p1 := if segment = "new_to_bank" then p0 * (15 / 10) else p0
  let p2 := if 500 < txn_amount then p1 * (13 / 10) else p1
  let p3 := if 50 < distance_from_home then p2 * (14 / 10) else p2
  let p4 := if 1 / 2 < merchant_risk_score then p3 * (12 / 10) else p3
  let p5 := if channel = "atm" then p4 * (13 / 10) else p4
  min p5 (30 / 100)

/-- The per-transaction fraud probability evaluated on the drawn features. -/
def cfFraudProb (d : CFDraws) : ℚ :=
  fraud_base_prob (cfSegment d) (cfTxnAmount d) (cfDistance d)
    (cfMerchantRisk d) (cfChannel d)

/-- `is_fraud`: Bernoulli draw against the fraud probability. -/
def cfIsFraud (d : CFDraws) : ℕ :=
  if d.fraudU < cfFraudProb d then 1 else 0

/-- Raw fraud-score mixture before rounding: correlated beta draws, with
weights depending on the ground-truth label. -/
def cfFraudScoreRaw (d : CFDraws) : ℚ :=
  if cfIsFraud d = 1 then d.fsA * (4 / 10) + d.fsB * (6 / 10)
  else d.fsA * (7 / 10) + d.fsB * (3 / 10)

/-- `fraud_score`: rounded to 6 places and clamped to [0, 1]. -/
def cfFraudScore (d : CFDraws) : ℚ :=
  max 0 (min 1 (roundTo 6 (cfFraudScoreRaw d)))

/-- `fraud_pred`: 1 iff the fraud score reaches the 0.5 threshold. -/
def cfFraudPred (d : CFDraws) : ℕ :=
  if 1 / 2 ≤ cfFraudScore d then 1 else 0

/-- `rules_engine_flag`: high amount together with high distance. -/
def cfRulesFlag (d : CFDraws) : ℕ :=
  if 200 < cfTxnAmount d ∧ 30 < cfDistance d then 1 else 0

/-- `risk_rank`: bucket 1-5 of the fraud score. -/
def cfRiskRank (d : CFDraws) : ℕ :=
  if cfFraudScore d < 1 / 10 then 1
  else if cfFraudScore d < 2 / 10 then 2
  else if cfFraudScore d < 4 / 10 then 3
  else if cfFraudScore d < 6 / 10 then 4
  else 5

/-- One transaction record generated at hour `t` with in-hour index `k`
(lines 80-213 of the source). -/
def mkTransaction (md5uuid : String → String) (t k : ℕ) (d : CFDraws) : CFTxn :=
  { timestamp := isoString t
    txn_id := md5uuid (isoString t ++ "_" ++ toString k)
    account_id := d.acctId
    customer_id := d.custId
    is_fraud := cfIsFraud d
    fraud_score := cfFraudScore d
    fraud_pred := cfFraudPred d
    rules_engine_flag := cfRulesFlag d
    risk_rank := cfRiskRank d
    customer_segment := cfSegment d
    channel := cfChannel d
    region := cfRegion d
    txn_amount := cfTxnAmount d
    distance_from_home_km := cfDistance d
    merchant_risk_score := cfMerchantRisk d
    digital_engagement := cfEngagement d
    tenure_months := d.tenureRaw }

/-- The transactions generated for one hour slot. -/
def genHour (md5uuid : String → String) (t tph : ℕ) (draws : ℕ → CFDraws) :
    List CFTxn :=
  (List.range tph).map (fun k => mkTransaction md5uuid t k (draws k))

/-- A written JSON file: its path (as components) and its records. -/
structure CFFile where
  path : List String
  records : List CFTxn
  deriving DecidableEq

/-- The statistics dictionary accumulated by the run. -/
structure CFStats where
  total_transactions : ℕ
  total_fraud : ℕ
  files_created : ℕ
  deriving DecidableEq

/-- The partitioned output path
`year=YYYY/month=MM/day=DD/inferences_hour=HH.json` for hour `t`, below the
output directory. -/
def cfFilePath (dir : List String) (t : ℕ) : List String :=
  let c := dtComponents t
  dir ++ ["year=" ++ toString c.1, "month=" ++ pad2 c.2.1,
    "day=" ++ pad2 c.2.2.1, "inferences_hour=" ++ pad2 c.2.2.2 ++ ".json"]

/-- Number of records with `is_fraud = 1`. -/
def countFraud (ts : List CFTxn) : ℕ :=
  (ts.filter (fun r => r.is_fraud == 1)).length

/-- The hour-by-hour generation loop (lines 70-233): starting at hour `t`,
for `n` hourly steps, generate the hour batches, write one file per hour
when an output directory is given, and accumulate statistics. -/
def cfLoop (md5uuid : String → String) (outDir : Option (List String))
    (tph : ℕ) (draws : ℕ → ℕ → CFDraws) : ℕ → ℕ → List CFFile × CFStats
  | _, 0 => ([], ⟨0, 0, 0⟩)
  | t, n + 1 =>
    let txns := genHour md5uuid t tph (draws t)
    let rest := cfLoop md5uuid outDir tph draws (t + 1) n
    let hereFiles : List CFFile :=
      match outDir with
      | some dir => [⟨cfFilePath dir t, txns⟩]
      | none => []
    (hereFiles ++ rest.1,
      { total_transactions := txns.length + rest.2.total_transactions
        total_fraud := countFraud txns + rest.2.total_fraud
        files_created := hereFiles.length + rest.2.files_created })

/-- Result of a full run: the files written, the statistics, and the
derived fields of the returned dictionary. -/
structure CFResult where
  files : List CFFile
  stats : CFStats
  fraud_rate : ℚ
  date_range : String
  deriving DecidableEq

/-- Number of hourly loop iterations between the start and end `datetime`
(both at midnight of their day), inclusive. -/
def cfNumHours (startT endT : ℕ) : ℕ :=
  if startT ≤ endT then endT - startT + 1 else 0

/-- Embedding of `generate_dataset`: dates are day counts since the epoch,
`todayDay` is the ambient clock date used only when a date argument is
`None` (lines 37-43), and `draws` is the random oracle fixed by the seed. -/
def generate_dataset (md5uuid : String → String)
    (startDay endDay : Option ℕ) (pastDays futureDays tph : ℕ)
    (outDir : Option (List String)) (draws : ℕ → ℕ → CFDraws)
    (todayDay : ℕ) : CFResult :=
  let sDay := match startDay with
    | some d => d
    | none => todayDay - pastDays
  let eDay := match endDay with
    | some d => d
    | none => todayDay + futureDays
  let startT := 24 * sDay
  let endT := 24 * eDay
  let r := cfLoop md5uuid outDir tph draws startT (cfNumHours startT endT)
  { files := r.1
    stats := r.2
    fraud_rate :=
      if r.2.total_transactions ≠ 0 then
        (r.2.total_fraud : ℚ) / (r.2.total_transactions : ℚ)
      else 0
    date_range := dateString sDay ++ " to " ++ dateString eDay }

end CardFraud

/-!
Embedding of `data/cc-application/datagen/generate_dataset.py`.

Each per-row sampler call reads one component of a `CCDraws` oracle
record.  The ambient clock enters through `todayDay` (the current date at
midnight, in days since the epoch), which the source reads with
`datetime.now()` on line 222 regardless of the arguments.  Timestamps are
modelled as seconds since the epoch.
-/

namespace CCApplication

/-- Oracle record holding the per-row random draws consumed by the
credit-card-application generator, in program order. -/
structure CCDraws where
  groupU : ℚ
  csRaw : ℚ
  incRaw : ℚ
  ageRaw : ℚ
  empU : ℚ
  yajU : ℚ
  dtiRaw : ℚ
  poisRaw : ℕ
  ychNoise : ℚ
  approvalU : ℚ
  noiseRaw : ℚ
  betaHi : ℚ
  betaLo : ℚ
  validU : ℚ
  hourOff : ℕ
  minOff : ℕ
  secOff : ℕ
  deriving DecidableEq

/-- All-zero draw record, used to instantiate theorems on concrete inputs. -/
def ccDrawsZero : CCDraws :=
  ⟨0, 0, 0, 0, 0, 0, 0, 0, 0, 0, 0, 0, 0, 0, 0, 0, 0⟩

/-- One row of the generated credit-card-application DataFrame. -/
structure CCRow where
  partition_date : ℕ
  timestamp : ℕ
  application_id : ℕ
  region : String
  actual_label : ℕ
  predicted_label : ℕ
  predicted_probability : ℚ
  is_valid_application : ℕ
  credit_score : ℤ
  annual_income : ℤ
  age : ℤ
  employment_status : String
  years_at_job : ℤ
  debt_to_income_ratio : ℚ
  num_credit_cards : ℤ
  years_credit_history : ℤ
  deriving DecidableEq

/-- Region group selection (30/25/25/20). -/
def ccGroup (d : CCDraws) : String :=
  npChoice ["Region_North", "Region_South", "Region_East", "Region_West"]
    [30 / 100, 25 / 100, 25 / 100, 20 / 100] d.groupU ""

/-- `credit_score`: normal draw clipped to [300, 850] then cast to int. -/
def ccCreditScore (d : CCDraws) : ℤ :=
  truncQ (npClip 300 850 d.csRaw)

/-- `annual_income`: lognormal draw cast to int then clipped. -/
def ccAnnualIncome (d : CCDraws) : ℤ :=
  npClip 20000 200000 (truncQ d.incRaw)

/-- `age`: gamma draw cast to int then clipped to [18, 75]. -/
def ccAge (d : CCDraws) : ℤ :=
  npClip 18 75 (truncQ d.ageRaw)

/-- Employment status selection (60/15/15/10). -/
def ccEmployment (d : CCDraws) : String :=
  npChoice ["Employed", "Self-employed", "Unemployed", "Retired"]
    [60 / 100, 15 / 100, 15 / 100, 10 / 100] d.empU ""

/-- `years_at_job`: age times a uniform factor, clipped to [0, 40], zeroed
for unemployed or retired applicants. -/
def ccYearsAtJob (d : CCDraws) : ℤ :=
  let y := npClip 0 40 (truncQ ((ccAge d : ℚ) * d.yajU))
  if ccEmployment d = "Unemployed" ∨ ccEmployment d = "Retired" then 0 else y

/-- `debt_to_income_ratio`: scaled beta draw plus an income adjustment,
clipped to [0, 0.8]. -/
def ccDti (d : CCDraws) : ℚ :=
  npClip 0 (8 / 10)
    (d.dtiRaw * (8 / 10) + (1 - (ccAnnualIncome d : ℚ) / 200000) * (2 / 10))

/-- `num_credit_cards`: credit-score-correlated count plus a Poisson draw,
cast to int and clipped to [0, 10]. -/
def ccNumCreditCards (d : CCDraws) : ℤ :=
  npClip 0 10
    (truncQ (((ccCreditScore d : ℚ) - 300) / 550 * 8 + (d.poisRaw : ℚ)))

/-- `years_credit_history`: age-correlated with Gaussian noise, cast to
int, clipped to [0, 50], then floored at 0 again. -/
def ccYearsCreditHistory (d : CCDraws) : ℤ :=
  max (npClip 0 50 (truncQ ((ccAge d : ℚ) - 18 + d.ychNoise))) 0

/-- The approval-probability construction for the ground-truth label
(lines 110-143 of the source). -/
def ccApprovalProb (d : CCDraws) : ℚ :=
  let base_prob := ((ccCreditScore d : ℚ) - 300) / 550
  let income_factor := min 1 ((ccAnnualIncome d : ℚ) / 100000)
  let dti_factor := 1 - ccDti d
  let employment_factor : ℚ :=
    if ccEmployment d = "Employed" then 1
    else if ccEmployment d = "Self-employed" then 8 / 10 else 1 / 2
  let history_factor := min 1 ((ccYearsCreditHistory d : ℚ) / 10)
  let p0 := base_prob * (4 / 10) + income_factor * (2 / 10) +
    dti_factor * (15 / 100) + employment_factor * (15 / 100) +
    history_factor * (1 / 10)
  let p1 :=
    if ccGroup d = "Region_North" then p0 * (11 / 10)
    else if ccGroup d = "Region_South" then p0 * (9 / 10)
    else if ccGroup d = "Region_East" then p0 * (105 / 100)
    else p0
  npClip (5 / 100) (95 / 100) p1

/-- `actual_label`: Bernoulli draw against the approval probability. -/
def ccActualLabel (d : CCDraws) : ℕ :=
  if d.approvalU < ccApprovalProb d then 1 else 0

/-- `predicted_probability`: the model-probability construction
(lines 151-193 of the source), clipped to [0.01, 0.99]. -/
def ccPredictedProb (d : CCDraws) : ℚ :=
  let base_pred := ((ccCreditScore d : ℚ) - 300) / 550
  let income_pred := min 1 ((ccAnnualIncome d : ℚ) / 100000)
  let dti_pred := 1 - ccDti d
  let emp_pred : ℚ :=
    if ccEmployment d = "Employed" then 1
    else if ccEmployment d = "Self-employed" then 8 / 10 else 1 / 2
  let hist_pred := min 1 ((ccYearsCreditHistory d : ℚ) / 10)
  let m0 := base_pred * (35 / 100) + income_pred * (25 / 100) +
    dti_pred * (2 / 10) + emp_pred * (1 / 10) + hist_pred * (1 / 10)
  let m1 := m0 + d.noiseRaw
  let m2 :=
    if ccGroup d = "Region_North" then m1 * (108 / 100)
    else if ccGroup d = "Region_South" then m1 * (92 / 100)
    else m1
  let m3 :=
    if ccActualLabel d = 1 then m2 * (7 / 10) + d.betaHi * (3 / 10)
    else m2 * (7 / 10) + d.betaLo * (3 / 10)
  npClip (1 / 100) (99 / 100) m3

/-- `predicted_label`: threshold the predicted probability at 0.5. -/
def ccPredictedLabel (d : CCDraws) : ℕ :=
  if 1 / 2 ≤ ccPredictedProb d then 1 else 0

/-- `is_valid_application`: 99% valid indicator. -/
def ccIsValid (d : CCDraws) : ℕ :=
  npChoice [0, 1] [1 / 100, 99 / 100] d.validU 0

/-- Timestamp of row `i` (lines 222-234): rows are spread over
`past_days + future_days + 1` days starting `past_days` before today, with
random offsets within the day.  Seconds since the epoch. -/
def ccTimestamp (i pastDays futureDays todayDay : ℕ) (d : CCDraws) : ℕ :=
  let startDay := todayDay - pastDays
  let totalDays := pastDays + futureDays + 1
  ((startDay + i % totalDays) * 24 + d.hourOff) * 3600 + d.minOff * 60 + d.secOff

/-- Row `i` of the generated DataFrame. -/
def mkCCRow (i pastDays futureDays todayDay : ℕ) (d : CCDraws) : CCRow :=
  { partition_date := ccTimestamp i pastDays futureDays todayDay d / 86400
    timestamp := ccTimestamp i pastDays futureDays todayDay d
    application_id := i + 1
    region := ccGroup d
    actual_label := ccActualLabel d
    predicted_label := ccPredictedLabel d
    predicted_probability := ccPredictedProb d
    is_valid_application := ccIsValid d
    credit_score := ccCreditScore d
    annual_income := ccAnnualIncome d
    age := ccAge d
    employment_status := ccEmployment d
    years_at_job := ccYearsAtJob d
    debt_to_income_ratio := ccDti d
    num_credit_cards := ccNumCreditCards d
    years_credit_history := ccYearsCreditHistory d }

/-- A written parquet file: its path (as components) and its rows. -/
structure CCFile where
  path : List String
  records : List CCRow
  deriving DecidableEq

/-- Insertion of a day number into a sorted list without duplicates. -/
def sortedInsert (x : ℕ) : List ℕ → List ℕ
  | [] => [x]
  | y :: ys =>
    if x = y then y :: ys
    else if x < y then x :: y :: ys
    else y :: sortedInsert x ys

/-- The distinct partition dates of the rows, in sorted order (the group
keys of the pandas `groupby`). -/
def ccPartitionDates (rows : List CCRow) : List ℕ :=
  rows.foldl (fun acc r => sortedInsert r.partition_date acc) []

/-- The date-partitioned parquet files written for the rows (lines 280-310
of the source): one directory `YYYY-MM-DD/` with a file
`data-YYYY-MM-DD.parquet` per distinct partition date. -/
def ccFiles (dir : List String) (rows : List CCRow) : List CCFile :=
  (ccPartitionDates rows).map (fun pd =>
    ⟨dir ++ [dateString pd, "data-" ++ dateString pd ++ ".parquet"],
      rows.filter (fun r => r.partition_date == pd)⟩)

/-- Result of a run: the returned DataFrame and the files written. -/
structure CCResult where
  df : List CCRow
  files : List CCFile
  deriving DecidableEq

/-- Embedding of `generate_dataset`: `todayDay` is the ambient clock date
(midnight, days since the epoch) read by `datetime.now()`, and `draws` is
the random oracle fixed by the seed. -/
def generate_dataset (nSamples pastDays futureDays : ℕ)
    (outDir : Option (List String)) (draws : ℕ → CCDraws)
    (todayDay : ℕ) : CCResult :=
  let rows := (List.range nSamples).map
    (fun i => mkCCRow i pastDays futureDays todayDay (draws i))
  { df := rows
    files :=
      match outDir with
      | some dir => ccFiles dir rows
      | none => [] }

end CCApplication

/-!
Embedding of
`data/multi-class-classifier-txn-category/datagen/generate_dataset.py`.

The class vocabulary, priors, per-category parameters and the
prediction/confusion logic are embedded from the module constants.  The
Dirichlet sampler is modelled as an oracle function from the concentration
vector to the drawn probability vector (`dirDraw`), so that which
concentration vector the code passes to `np.random.dirichlet` is visible in
the embedding.  Probability vectors are indexed by class position `ℕ`
(0 to 7, the order of `CATEGORIES`).
-/

namespace TxnCategory

/-- The eight spending categories, in source order. -/
def CATEGORIES : List String :=
  ["groceries", "dining", "travel", "entertainment", "utilities",
    "healthcare", "shopping", "automotive"]

/-- Population-level base rate for each category. -/
def CATEGORY_PRIORS : List ℚ :=
  [20 / 100, 15 / 100, 8 / 100, 10 / 100, 10 / 100, 8 / 100, 18 / 100, 11 / 100]

/-- Peak-hour membership per category (the `PEAK_HOURS` ranges). -/
def peakHour (cat : String) (h : ℕ) : Bool :=
  if cat = "groceries" then 9 ≤ h ∧ h < 20
  else if cat = "dining" then (11 ≤ h ∧ h < 14) ∨ (18 ≤ h ∧ h < 22)
  else if cat = "travel" then 6 ≤ h ∧ h < 22
  else if cat = "entertainment" then 14 ≤ h ∧ h < 23
  else if cat = "utilities" then 8 ≤ h ∧ h < 18
  else if cat = "healthcare" then 8 ≤ h ∧ h < 17
  else if cat = "shopping" then 10 ≤ h ∧ h < 21
  else if cat = "automotive" then 7 ≤ h ∧ h < 20
  else false

/-- Weekend multiplier per category. -/
def WEEKEND_MULTIPLIER (cat : String) : ℚ :=
  if cat = "groceries" then 12 / 10
  else if cat = "dining" then 15 / 10
  else if cat = "travel" then 14 / 10
  else if cat = "entertainment" then 16 / 10
  else if cat = "utilities" then 8 / 10
  else if cat = "healthcare" then 5 / 10
  else if cat = "shopping" then 14 / 10
  else if cat = "automotive" then 11 / 10
  else 1

/-- Per-category model accuracy. -/
def CATEGORY_ACCURACY (cat : String) : ℚ :=
  if cat = "groceries" then 82 / 100
  else if cat = "dining" then 78 / 100
  else if cat = "travel" then 88 / 100
  else if cat = "entertainment" then 74 / 100
  else if cat = "utilities" then 90 / 100
  else if cat = "healthcare" then 76 / 100
  else if cat = "shopping" then 75 / 100
  else if cat = "automotive" then 85 / 100
  else 0

/-- Misclassification targets and their probabilities per category. -/
def CONFUSION_TARGETS (cat : String) : List (String × ℚ) :=
  if cat = "groceries" then
    [("shopping", 50 / 100), ("dining", 30 / 100), ("automotive", 20 / 100)]
  else if cat = "dining" then
    [("entertainment", 45 / 100), ("groceries", 30 / 100), ("shopping", 25 / 100)]
  else if cat = "travel" then
    [("entertainment", 40 / 100), ("shopping", 35 / 100), ("automotive", 25 / 100)]
  else if cat = "entertainment" then
    [("dining", 45 / 100), ("shopping", 30 / 100), ("travel", 25 / 100)]
  else if cat = "utilities" then
    [("healthcare", 40 / 100), ("shopping", 35 / 100), ("automotive", 25 / 100)]
  else if cat = "healthcare" then
    [("utilities", 45 / 100), ("shopping", 30 / 100), ("groceries", 25 / 100)]
  else if cat = "shopping" then
    [("groceries", 45 / 100), ("entertainment", 30 / 100), ("automotive", 25 / 100)]
  else if cat = "automotive" then
    [("shopping", 40 / 100), ("groceries", 35 / 100), ("utilities", 25 / 100)]
  else []

/-- Channel probabilities per ground-truth category (`CHANNEL_PROBS`). -/
def mcChannelProbs (cat : String) : List ℚ :=
  if cat = "groceries" then [55 / 100, 15 / 100, 10 / 100, 20 / 100]
  else if cat = "dining" then [65 / 100, 20 / 100, 10 / 100, 5 / 100]
  else if cat = "travel" then [25 / 100, 55 / 100, 15 / 100, 5 / 100]
  else if cat = "entertainment" then [35 / 100, 40 / 100, 20 / 100, 5 / 100]
  else if cat = "utilities" then [5 / 100, 70 / 100, 25 / 100, 0]
  else if cat = "healthcare" then [65 / 100, 25 / 100, 10 / 100, 0]
  else if cat = "shopping" then [30 / 100, 50 / 100, 15 / 100, 5 / 100]
  else if cat = "automotive" then [80 / 100, 8 / 100, 5 / 100, 7 / 100]
  else []

/-- Merchant type labels per ground-truth category (`MERCHANT_TYPES`);
`random.choice` over these is modelled by an oracle index draw. -/
def mcMerchantTypes (cat : String) : List String :=
  if cat = "groceries" then
    ["supermarket", "convenience_store", "wholesale_club", "specialty_food"]
  else if cat = "dining" then
    ["restaurant", "fast_food", "cafe", "food_delivery", "bar"]
  else if cat = "travel" then
    ["airline", "hotel", "car_rental", "rideshare", "vacation_rental"]
  else if cat = "entertainment" then
    ["cinema", "streaming", "gaming", "event_venue", "amusement"]
  else if cat = "utilities" then
    ["electric", "gas", "water", "internet", "mobile_carrier"]
  else if cat = "healthcare" then
    ["pharmacy", "clinic", "hospital", "dental", "vision"]
  else if cat = "shopping" then
    ["department_store", "online_retailer", "electronics", "clothing", "home_goods"]
  else if cat = "automotive" then
    ["gas_station", "parking", "auto_repair", "car_wash", "dealership"]
  else []

/-- Python `weekday()` of a day count since the epoch (1970-01-01 was a
Thursday, weekday 3; 0 = Monday, 6 = Sunday). -/
def weekdayOf (day : ℕ) : ℕ :=
  (day + 3) % 7

/-- The time-of-day and weekend adjusted, renormalised category priors
(lines 272-280 of the source). -/
def adjustedPriors (hour dow : ℕ) : List ℚ :=
  let raw := (List.range 8).map (fun idx =>
    let cat := CATEGORIES.getD idx ""
    let p0 := CATEGORY_PRIORS.getD idx 0
    let p1 := if peakHour cat hour then p0 * (13 / 10) else p0
    if 5 ≤ dow then p1 * WEEKEND_MULTIPLIER cat else p1)
  let s := raw.foldr (· + ·) 0
  raw.map (· / s)

/-- Oracle record holding the per-transaction random draws consumed by the
multi-class generator.  `dirDraw` is the Dirichlet sampler oracle: it maps
the concentration vector the code passes to `np.random.dirichlet` to the
drawn probability vector. -/
structure MCDraws where
  gtU : ℚ
  amtRaw : ℚ
  chanU : ℚ
  merchIdx : ℕ
  acctId : String
  segment : String
  correctU : ℚ
  confU : ℚ
  dirDraw : (ℕ → ℚ) → ℕ → ℚ

/-- All-zero draw record, used to instantiate theorems on concrete inputs. -/
def mcDrawsZero : MCDraws :=
  ⟨0, 0, 0, 0, "", "", 0, 0, fun _ _ => 0⟩

/-- One generated multi-class transaction row. -/
structure MCRow where
  timestamp : ℕ
  transaction_id : String
  account_id : String
  customer_segment : String
  channel : String
  merchant_type : String
  transaction_amount : ℚ
  hour_of_day : ℕ
  day_of_week : ℕ
  ground_truth_category : String
  predicted_category : String
  prediction_confidence : ℚ
  pred_prob_groceries : ℚ
  pred_prob_dining : ℚ
  pred_prob_travel : ℚ
  pred_prob_entertainment : ℚ
  pred_prob_utilities : ℚ
  pred_prob_healthcare : ℚ
  pred_prob_shopping : ℚ
  pred_prob_automotive : ℚ

/-- Ground-truth category index drawn from the adjusted priors. -/
def mcGtIdx (t : ℕ) (d : MCDraws) : ℕ :=
  npChoiceIdx (adjustedPriors (t % 24) (weekdayOf (t / 24))) d.gtU

/-- Predicted category: correct with the per-category accuracy, otherwise a
confusion-target draw (lines 297-305 of the source). -/
def mcPredCategory (gtCat : String) (d : MCDraws) : String :=
  if d.correctU < CATEGORY_ACCURACY gtCat then gtCat
  else
    npChoice ((CONFUSION_TARGETS gtCat).map Prod.fst)
      ((CONFUSION_TARGETS gtCat).map Prod.snd) d.confU ""

/-- The Dirichlet concentration vector built on lines 311-314 of the
source: background 0.4 everywhere, then `alpha[pred_idx] = 8.0`, then
`alpha[gt_idx] = 2.5` when the prediction differs from the ground truth. -/
def mcAlpha (predIdx gtIdx : ℕ) : ℕ → ℚ := fun j =>
  if predIdx ≠ gtIdx ∧ j = gtIdx then 25 / 10
  else if j = predIdx then 8
  else 4 / 10

/-- One transaction row generated at hour `t` with in-hour index `i`
(lines 282-345 of the source). -/
def mkMCRow (md5uuid : String → String) (t i : ℕ) (d : MCDraws) : MCRow :=
  let gtIdx := mcGtIdx t d
  let gtCat := CATEGORIES.getD gtIdx ""
  let predCat := mcPredCategory gtCat d
  let predIdx := CATEGORIES.indexOf predCat
  let rawProbs := d.dirDraw (mcAlpha predIdx gtIdx)
  { timestamp := t
    transaction_id := md5uuid (isoString t ++ "_" ++ toString i)
    account_id := d.acctId
    customer_segment := d.segment
    channel := npChoice ["in_store", "online", "mobile", "contactless"]
      (mcChannelProbs gtCat) d.chanU ""
    merchant_type := (mcMerchantTypes gtCat).getD
      (d.merchIdx % (mcMerchantTypes gtCat).length) ""
    transaction_amount := roundTo 2 (min d.amtRaw 50000)
    hour_of_day := t % 24
    day_of_week := weekdayOf (t / 24)
    ground_truth_category := gtCat
    predicted_category := predCat
    prediction_confidence := roundTo 6 (rawProbs predIdx)
    pred_prob_groceries := roundTo 6 (rawProbs 0)
    pred_prob_dining := roundTo 6 (rawProbs 1)
    pred_prob_travel := roundTo 6 (rawProbs 2)
    pred_prob_entertainment := roundTo 6 (rawProbs 3)
    pred_prob_utilities := roundTo 6 (rawProbs 4)
    pred_prob_healthcare := roundTo 6 (rawProbs 5)
    pred_prob_shopping := roundTo 6 (rawProbs 6)
    pred_prob_automotive := roundTo 6 (rawProbs 7)
  }

/-- The hour-by-hour generation loop (lines 264-352): the rows generated
for `n` hourly steps starting at hour `t`, in generation order (the source
buckets them by date string before writing; bucketing preserves the ids). -/
def mcLoop (md5uuid : String → String) (tph : ℕ)
    (draws : ℕ → ℕ → MCDraws) : ℕ → ℕ → List MCRow
  | _, 0 => []
  | t, n + 1 =>
    ((List.range tph).map (fun i => mkMCRow md5uuid t i (draws t i))) ++
      mcLoop md5uuid tph draws (t + 1) n

end TxnCategory

/-!
Embedding of the onboarding automation scripts
(`script automation/onboarding/add-fraud-model-aggregations.py` and
`add-custom-aggregations.py`): the dataset-schema column lookup, the
duplicate-aggregation filter of `main`, and the top-level
`if __name__ == "__main__"` exception handlers.  Exceptions are modelled by
`PyExc`; a script body is modelled by its outcome `Except PyExc Unit`, and
a top-level handler maps that outcome to the outcome that escapes the
process.
-/

namespace Onboarding

/-- A Python exception: either a `ValueError` or any other exception. -/
inductive PyExc where
  | valueError (msg : String)
  | otherError (msg : String)
  deriving DecidableEq

/-- The `add-fraud-model-aggregations.py` top-level handler (lines
320-329): both `except ValueError` and `except Exception` print a
diagnostic and fall off the end of the script. -/
def fraudAggTopLevel (r : Except PyExc Unit) : Except PyExc Unit :=
  match r with
  | .ok _ => .ok ()
  | .error (.valueError _) => .ok ()
  | .error (.otherError _) => .ok ()

/-- The `add-custom-aggregations.py` top-level handler (lines 317-327):
`except ValueError` prints and exits, but the generic `except Exception`
branch ends in `raise`, re-raising the exception. -/
def customAggTopLevel (r : Except PyExc Unit) : Except PyExc Unit :=
  match r with
  | .ok _ => .ok ()
  | .error (.valueError _) => .ok ()
  | .error (.otherError m) => .error (.otherError m)

/-- A dataset schema column. -/
structure SchemaColumn where
  id : String
  source_name : String
  deriving DecidableEq

/-- Embedding of `column_id_from_col_name` (lines 28-33): return the id of
the first column whose source name matches, else raise a `ValueError`. -/
def column_id_from_col_name (cols : List SchemaColumn) (colName : String) :
    Except PyExc String :=
  match cols.find? (fun c => c.source_name == colName) with
  | some c => .ok c.id
  | none =>
    .error (.valueError ("Column " ++ colName ++ " not found in dataset schema"))

/-- An aggregation argument value (string id, number, or list of ids). -/
inductive ArgValue where
  | str (s : String)
  | num (q : ℚ)
  | strList (ss : List String)
  deriving DecidableEq

/-- One `MetricsArgSpec` key/value pair. -/
structure MetricsArgSpec where
  arg_key : String
  arg_value : ArgValue
  deriving DecidableEq

/-- One `AggregationSpec`. -/
structure AggregationSpec where
  aggregation_id : String
  aggregation_init_args : List MetricsArgSpec
  aggregation_args : List MetricsArgSpec
  deriving DecidableEq

/-- The duplicate test of the filter loop (lines 257-268 of
`add-fraud-model-aggregations.py`): an existing spec matches a candidate
when both the aggregation id and the aggregation args coincide. -/
def aggMatches (e a : AggregationSpec) : Bool :=
  decide (e.aggregation_id = a.aggregation_id ∧
    e.aggregation_args = a.aggregation_args)

/-- The candidates that survive the duplicate filter. -/
def aggregationsToAdd (newAggs existing : List AggregationSpec) :
    List AggregationSpec :=
  newAggs.filter (fun a => !(existing.any (fun e => aggMatches e a)))

/-- The script effect on the model metric configuration (lines 253-310):
if no new aggregations remain after the filter the script returns early and
the configuration is untouched; otherwise the configuration becomes the
existing specs followed by the filtered additions. -/
def runAddFraudAggregations (newAggs cfg : List AggregationSpec) :
    List AggregationSpec :=
  let toAdd := aggregationsToAdd newAggs cfg
  if toAdd = [] then cfg else cfg ++ toAdd

end Onboarding

/-!
Claim theorems.
-/

open CardFraud CCApplication TxnCategory Onboarding

theorem roundHalfEven_ge_floor (x : ℚ) : ⌊x⌋ ≤ roundHalfEven x := by
  unfold roundHalfEven
  dsimp only
  split_ifs <;> omega

theorem roundHalfEven_le_floor_add_one (x : ℚ) : roundHalfEven x ≤ ⌊x⌋ + 1 := by
  unfold roundHalfEven
  dsimp only
  split_ifs <;> omega

theorem roundHalfEven_le_of_le_int (x : ℚ) (n : ℤ) (h : x ≤ (n : ℚ)) :
    roundHalfEven x ≤ n := by
  have hfl : ⌊x⌋ ≤ n :=
    le_trans (Int.floor_le_floor h) (le_of_eq (Int.floor_intCast n))
  rcases lt_or_eq_of_le hfl with hlt | heq
  · exact le_trans (roundHalfEven_le_floor_add_one x) (by omega)
  · have hxn : x = (n : ℚ) := le_antisymm h (by
      have := Int.floor_le x
      rw [heq] at this
      exact_mod_cast this)
    subst hxn
    unfold roundHalfEven
    dsimp only
    have hfl' : ⌊(n : ℚ)⌋ = n := Int.floor_intCast n
    split_ifs <;> simp_all

theorem le_roundHalfEven_of_int_le (x : ℚ) (n : ℤ) (h : (n : ℚ) ≤ x) :
    n ≤ roundHalfEven x :=
  le_trans (Int.le_floor.mpr h) (roundHalfEven_ge_floor x)

theorem roundTo_le_of_le_int (p : ℕ) (x : ℚ) (n : ℤ) (h : x ≤ (n : ℚ)) :
    roundTo p x ≤ (n : ℚ) := by
  unfold roundTo
  rw [div_le_iff₀ (by positivity)]
  have hx : x * 10 ^ p ≤ ((n * 10 ^ p : ℤ) : ℚ) := by
    push_cast
    exact mul_le_mul_of_nonneg_right h (by positivity)
  have := roundHalfEven_le_of_le_int (x * 10 ^ p) (n * 10 ^ p) hx
  calc (roundHalfEven (x * 10 ^ p) : ℚ) ≤ ((n * 10 ^ p : ℤ) : ℚ) := by exact_mod_cast this
    _ = (n : ℚ) * 10 ^ p := by push_cast; ring

theorem int_le_roundTo_of_le (p : ℕ) (x : ℚ) (n : ℤ) (h : (n : ℚ) ≤ x) :
    (n : ℚ) ≤ roundTo p x := by
  unfold roundTo
  rw [le_div_iff₀ (by positivity)]
  have hx : ((n * 10 ^ p : ℤ) : ℚ) ≤ x * 10 ^ p := by
    push_cast
    exact mul_le_mul_of_nonneg_right h (by positivity)
  have := le_roundHalfEven_of_int_le (x * 10 ^ p) (n * 10 ^ p) hx
  calc (n : ℚ) * 10 ^ p = ((n * 10 ^ p : ℤ) : ℚ) := by push_cast; ring
    _ ≤ (roundHalfEven (x * 10 ^ p) : ℚ) := by exact_mod_cast this

theorem npClip_le {α : Type} [LinearOrder α] (lo hi x : α) : npClip lo hi x ≤ hi :=
  min_le_left _ _

theorem le_npClip {α : Type} [LinearOrder α] (lo hi x : α) (h : lo ≤ hi) :
    lo ≤ npClip lo hi x :=
  le_min h (le_max_right x lo)

theorem truncQ_le_of_le_int (x : ℚ) (n : ℤ) (h : x ≤ (n : ℚ)) : truncQ x ≤ n := by
  unfold truncQ
  split_ifs
  · exact le_trans (Int.floor_le_floor h) (le_of_eq (Int.floor_intCast n))
  · exact Int.ceil_le.mpr h

theorem int_le_truncQ_of_le (x : ℚ) (n : ℤ) (h0 : (0 : ℚ) ≤ x) (h : (n : ℚ) ≤ x) :
    n ≤ truncQ x := by
  unfold truncQ
  rw [if_pos h0]
  exact Int.le_floor.mpr h

/-- Claim C4: the Bernoulli parameter from which `is_fraud` is drawn is a
deterministic function of the transaction features — base rate 0.05 times
1.5 for `new_to_bank`, 1.3 for amount over 500, 1.4 for distance over 50,
1.2 for merchant risk over 0.5, 1.3 for the atm channel, capped at 0.30 —
and it always lies in [0.05, 0.30]. -/
theorem cf_fraud_prob_formula_and_bounds (segment : String)
    (txn_amount distance_from_home merchant_risk_score : ℚ) (channel : String) :
    fraud_base_prob segment txn_amount distance_from_home merchant_risk_score
        channel =
      min ((5 / 100 : ℚ) * (if segment = "new_to_bank" then 15 / 10 else 1) *
        (if 500 < txn_amount then 13 / 10 else 1) *
        (if 50 < distance_from_home then 14 / 10 else 1) *
        (if 1 / 2 < merchant_risk_score then 12 / 10 else 1) *
        (if channel = "atm" then 13 / 10 else 1)) (30 / 100) ∧
    5 / 100 ≤ fraud_base_prob segment txn_amount distance_from_home
      merchant_risk_score channel ∧
    fraud_base_prob segment txn_amount distance_from_home merchant_risk_score
      channel ≤ 30 / 100 := by
  unfold fraud_base_prob
  dsimp only
  refine ⟨?_, ?_, ?_⟩ <;> split_ifs <;> norm_num

/-- Claim C8: the predicted label is 1 exactly when the predicted
probability reaches 0.5 — `fraud_pred = 1` iff `fraud_score >= 0.5` in the
card-fraud generator, and `predicted_label = 1` iff
`predicted_probability >= 0.5` in the cc-application generator. -/
theorem pred_label_iff_score_ge_half (md5uuid : String → String) (t k : ℕ)
    (d : CFDraws) (i pastDays futureDays todayDay : ℕ) (dc : CCDraws) :
    ((mkTransaction md5uuid t k d).fraud_pred = 1 ↔
      1 / 2 ≤ (mkTransaction md5uuid t k d).fraud_score) ∧
    ((mkCCRow i pastDays futureDays todayDay dc).predicted_label = 1 ↔
      1 / 2 ≤ (mkCCRow i pastDays futureDays todayDay dc).predicted_probability) := by
  constructor
  · show cfFraudPred d = 1 ↔ 1 / 2 ≤ cfFraudScore d
    unfold cfFraudPred
    split_ifs with h <;> simpa using h
  · show ccPredictedLabel dc = 1 ↔ 1 / 2 ≤ ccPredictedProb dc
    unfold ccPredictedLabel
    split_ifs with h <;> simpa using h

/-- Claim C5: each record's per-class probabilities come from a single
Dirichlet draw whose concentration vector is 0.4 for every class, 8.0 for
the predicted class, and 2.5 for the ground-truth class when it differs
from the predicted one; every component is rounded to 6 decimal places, and
`prediction_confidence` is the rounded probability of the predicted class. -/
theorem mc_dirichlet_alpha_and_probs (md5uuid : String → String) (t i : ℕ)
    (d : MCDraws) :
    let gtIdx := mcGtIdx t d
    let gtCat := CATEGORIES.getD gtIdx ""
    let predCat := mcPredCategory gtCat d
    let predIdx := CATEGORIES.indexOf predCat
    let rawProbs := d.dirDraw (mcAlpha predIdx gtIdx)
    let row := mkMCRow md5uuid t i d
    (∀ j : Fin 8, mcAlpha predIdx gtIdx (j : ℕ) =
      (if (j : ℕ) = predIdx then 8
       else if (j : ℕ) = gtIdx ∧ gtIdx ≠ predIdx then 25 / 10
       else 4 / 10)) ∧
    row.pred_prob_groceries = roundTo 6 (rawProbs 0) ∧
    row.pred_prob_dining = roundTo 6 (rawProbs 1) ∧
    row.pred_prob_travel = roundTo 6 (rawProbs 2) ∧
    row.pred_prob_entertainment = roundTo 6 (rawProbs 3) ∧
    row.pred_prob_utilities = roundTo 6 (rawProbs 4) ∧
    row.pred_prob_healthcare = roundTo 6 (rawProbs 5) ∧
    row.pred_prob_shopping = roundTo 6 (rawProbs 6) ∧
    row.pred_prob_automotive = roundTo 6 (rawProbs 7) ∧
    row.prediction_confidence = roundTo 6 (rawProbs predIdx) := by
  refine ⟨?_, rfl, rfl, rfl, rfl, rfl, rfl, rfl, rfl, rfl⟩
  intro j
  unfold mcAlpha
  split_ifs <;> first | rfl | omega

/-- Claim C6 counterexample: the `add-custom-aggregations.py` top-level
handler re-raises any exception that is not a `ValueError` (the `raise` on
its generic `except Exception` branch), so such an exception propagates out
of the script uncaught. -/
theorem custom_agg_reraises_other_exceptions :
    customAggTopLevel (.error (.otherError "boom")) =
      .error (.otherError "boom") := rfl

theorem agg_matches_self (a : AggregationSpec) : aggMatches a a = true := by
  simp [aggMatches]

theorem run_add_fraud_of_none_to_add (newAggs cfg : List AggregationSpec)
    (h : aggregationsToAdd newAggs cfg = []) :
    runAddFraudAggregations newAggs cfg = cfg := by
  simp [runAddFraudAggregations, h]

/-- Claim C6 (amended): in `add-fraud-model-aggregations.py` every exception
from the main flow — including the `ValueError` raised by
`column_id_from_col_name` when a column is missing — is caught by the
top-level handler, which prints a diagnostic and lets the script exit; in
`add-custom-aggregations.py` this holds for `ValueError` only, while any
other exception is re-raised after the diagnostic and propagates. -/
theorem onboarding_top_level_handlers (r : Except PyExc Unit) (m colName : String)
    (cols : List SchemaColumn)
    (h : cols.find? (fun c => c.source_name == colName) = none) :
    fraudAggTopLevel r = .ok () ∧
    customAggTopLevel (.error (.valueError m)) = .ok () ∧
    customAggTopLevel (.error (.otherError m)) = .error (.otherError m) ∧
    column_id_from_col_name cols colName =
      .error (.valueError ("Column " ++ colName ++
        " not found in dataset schema")) := by
  refine ⟨?_, rfl, rfl, ?_⟩
  · cases r with
    | ok u => rfl
    | error e => cases e <;> rfl
  · unfold column_id_from_col_name
    rw [h]

/-- Witness for the amended C6 theorem at a concrete input. -/
theorem onboarding_top_level_handlers_witness :
    ([] : List SchemaColumn).find? (fun c => c.source_name == "is_fraud") = none ∧
    (fraudAggTopLevel (.error (.otherError "boom")) = .ok () ∧
    customAggTopLevel (.error (.valueError "bad")) = .ok () ∧
    customAggTopLevel (.error (.otherError "bad")) = .error (.otherError "bad") ∧
    column_id_from_col_name [] "is_fraud" =
      .error (.valueError ("Column " ++ "is_fraud" ++
        " not found in dataset schema"))) :=
  ⟨rfl, onboarding_top_level_handlers (.error (.otherError "boom")) "bad"
    "is_fraud" [] rfl⟩

/-- Claim C9: the `add-fraud-model-aggregations.py` script adds only
aggregations for which no existing spec has the same `aggregation_id` and
`aggregation_args`, so a second run on the configuration produced by a
first run finds zero new aggregations to add and leaves the metric
configuration unchanged. -/
theorem add_fraud_aggregations_idempotent (newAggs cfg : List AggregationSpec) :
    aggregationsToAdd newAggs (runAddFraudAggregations newAggs cfg) = [] ∧
    runAddFraudAggregations newAggs (runAddFraudAggregations newAggs cfg) =
      runAddFraudAggregations newAggs cfg := by
  have key : ∀ a ∈ newAggs, ∃ e ∈ runAddFraudAggregations newAggs cfg,
      aggMatches e a = true := by
    intro a ha
    by_cases hc : ∃ e ∈ cfg, aggMatches e a = true
    · obtain ⟨e, he, hm⟩ := hc
      refine ⟨e, ?_, hm⟩
      unfold runAddFraudAggregations
      dsimp only
      split_ifs with hnil
      · exact he
      · exact List.mem_append_left _ he
    · have hany : cfg.any (fun e => aggMatches e a) = false := by
        rw [List.any_eq_false]
        intro e he hm
        exact hc ⟨e, he, hm⟩
      have hmem : a ∈ aggregationsToAdd newAggs cfg := by
        unfold aggregationsToAdd
        exact List.mem_filter.mpr ⟨ha, by simp [hany]⟩
      refine ⟨a, ?_, agg_matches_self a⟩
      unfold runAddFraudAggregations
      dsimp only
      have hne : aggregationsToAdd newAggs cfg ≠ [] := by
        intro hnil
        rw [hnil] at hmem
        exact List.not_mem_nil a hmem
      rw [if_neg hne]
      exact List.mem_append_right _ hmem
  have h1 : aggregationsToAdd newAggs (runAddFraudAggregations newAggs cfg) = [] := by
    unfold aggregationsToAdd
    rw [List.filter_eq_nil_iff]
    intro a ha
    obtain ⟨e, he, hm⟩ := key a ha
    simp only [Bool.not_eq_true', Bool.not_eq_false, List.any_eq_true]
    exact ⟨e, he, hm⟩
  exact ⟨h1, run_add_fraud_of_none_to_add newAggs _ h1⟩

theorem cfTxnAmount_range (d : CFDraws) :
    1 ≤ cfTxnAmount d ∧ cfTxnAmount d ≤ 10000 := by
  unfold cfTxnAmount
  exact ⟨le_max_left 1 _, max_le (by norm_num) (min_le_right _ _)⟩

theorem cfDistance_range (d : CFDraws) (h : 0 ≤ d.distRaw) :
    0 ≤ cfDistance d ∧ cfDistance d ≤ 1000 := by
  unfold cfDistance
  refine ⟨le_min ?_ (by norm_num), min_le_right _ _⟩
  exact_mod_cast int_le_roundTo_of_le 2 d.distRaw 0 (by exact_mod_cast h)

theorem cfMerchantRisk_range (d : CFDraws) (h0 : 0 ≤ d.mrsRaw)
    (h1 : d.mrsRaw ≤ 1) : 0 ≤ cfMerchantRisk d ∧ cfMerchantRisk d ≤ 1 := by
  unfold cfMerchantRisk
  constructor
  · exact_mod_cast int_le_roundTo_of_le 4 d.mrsRaw 0 (by exact_mod_cast h0)
  · exact_mod_cast roundTo_le_of_le_int 4 d.mrsRaw 1 (by exact_mod_cast h1)

theorem cfFraudScore_range (d : CFDraws) :
    0 ≤ cfFraudScore d ∧ cfFraudScore d ≤ 1 := by
  unfold cfFraudScore
  exact ⟨le_max_left 0 _, max_le (by norm_num) (min_le_left _ _)⟩

theorem cfIsFraud_01 (d : CFDraws) : cfIsFraud d = 0 ∨ cfIsFraud d = 1 := by
  unfold cfIsFraud
  split_ifs <;> simp

theorem cfFraudPred_01 (d : CFDraws) : cfFraudPred d = 0 ∨ cfFraudPred d = 1 := by
  unfold cfFraudPred
  split_ifs <;> simp

theorem cfRiskRank_range (d : CFDraws) :
    1 ≤ cfRiskRank d ∧ cfRiskRank d ≤ 5 := by
  unfold cfRiskRank
  split_ifs <;> omega

theorem ccCreditScore_range (d : CCDraws) :
    300 ≤ ccCreditScore d ∧ ccCreditScore d ≤ 850 := by
  unfold ccCreditScore
  have hlo : (300 : ℚ) ≤ npClip 300 850 d.csRaw := le_npClip _ _ _ (by norm_num)
  have hhi : npClip (300 : ℚ) 850 d.csRaw ≤ 850 := npClip_le _ _ _
  constructor
  · exact int_le_truncQ_of_le _ 300 (by linarith) (by exact_mod_cast hlo)
  · exact truncQ_le_of_le_int _ 850 (by exact_mod_cast hhi)

theorem ccAnnualIncome_range (d : CCDraws) :
    20000 ≤ ccAnnualIncome d ∧ ccAnnualIncome d ≤ 200000 := by
  unfold ccAnnualIncome
  exact ⟨le_npClip _ _ _ (by norm_num), npClip_le _ _ _⟩

theorem ccAge_range (d : CCDraws) : 18 ≤ ccAge d ∧ ccAge d ≤ 75 := by
  unfold ccAge
  exact ⟨le_npClip _ _ _ (by norm_num), npClip_le _ _ _⟩

theorem ccDti_range (d : CCDraws) : 0 ≤ ccDti d ∧ ccDti d ≤ 8 / 10 := by
  unfold ccDti
  exact ⟨le_npClip _ _ _ (by norm_num), npClip_le _ _ _⟩

theorem ccPredictedProb_range (d : CCDraws) :
    1 / 100 ≤ ccPredictedProb d ∧ ccPredictedProb d ≤ 99 / 100 := by
  unfold ccPredictedProb
  dsimp only
  exact ⟨le_npClip _ _ _ (by norm_num), npClip_le _ _ _⟩

/-- Claim C2: every generated record satisfies the documented range checks.
Card fraud: `txn_amount ∈ [1, 10000]`, `distance_from_home_km ∈ [0, 1000]`,
`merchant_risk_score, fraud_score ∈ [0, 1]`, `is_fraud, fraud_pred ∈ {0, 1}`,
`risk_rank ∈ {1, ..., 5}`.  Credit-card application:
`credit_score ∈ [300, 850]`, `annual_income ∈ [20000, 200000]`,
`age ∈ [18, 75]`, `debt_to_income_ratio ∈ [0, 0.8]`,
`predicted_probability ∈ [0.01, 0.99]`.  The hypotheses record the supports
of the oracle draws involved (the exponential distance draw is nonnegative
and the beta merchant-risk draw lies in [0, 1]); all other bounds hold for
arbitrary draws because the code clips. -/
theorem generator_field_ranges (md5uuid : String → String) (t k : ℕ)
    (d : CFDraws) (hdist : 0 ≤ d.distRaw) (hmrs0 : 0 ≤ d.mrsRaw)
    (hmrs1 : d.mrsRaw ≤ 1) (i pastDays futureDays todayDay : ℕ)
    (dc : CCDraws) :
    (1 ≤ (mkTransaction md5uuid t k d).txn_amount ∧
      (mkTransaction md5uuid t k d).txn_amount ≤ 10000) ∧
    (0 ≤ (mkTransaction md5uuid t k d).distance_from_home_km ∧
      (mkTransaction md5uuid t k d).distance_from_home_km ≤ 1000) ∧
    (0 ≤ (mkTransaction md5uuid t k d).merchant_risk_score ∧
      (mkTransaction md5uuid t k d).merchant_risk_score ≤ 1) ∧
    (0 ≤ (mkTransaction md5uuid t k d).fraud_score ∧
      (mkTransaction md5uuid t k d).fraud_score ≤ 1) ∧
    ((mkTransaction md5uuid t k d).is_fraud = 0 ∨
      (mkTransaction md5uuid t k d).is_fraud = 1) ∧
    ((mkTransaction md5uuid t k d).fraud_pred = 0 ∨
      (mkTransaction md5uuid t k d).fraud_pred = 1) ∧
    (1 ≤ (mkTransaction md5uuid t k d).risk_rank ∧
      (mkTransaction md5uuid t k d).risk_rank ≤ 5) ∧
    (300 ≤ (mkCCRow i pastDays futureDays todayDay dc).credit_score ∧
      (mkCCRow i pastDays futureDays todayDay dc).credit_score ≤ 850) ∧
    (20000 ≤ (mkCCRow i pastDays futureDays todayDay dc).annual_income ∧
      (mkCCRow i pastDays futureDays todayDay dc).annual_income ≤ 200000) ∧
    (18 ≤ (mkCCRow i pastDays futureDays todayDay dc).age ∧
      (mkCCRow i pastDays futureDays todayDay dc).age ≤ 75) ∧
    (0 ≤ (mkCCRow i pastDays futureDays todayDay dc).debt_to_income_ratio ∧
      (mkCCRow i pastDays futureDays todayDay dc).debt_to_income_ratio ≤ 8 / 10) ∧
    (1 / 100 ≤ (mkCCRow i pastDays futureDays todayDay dc).predicted_probability ∧
      (mkCCRow i pastDays futureDays todayDay dc).predicted_probability ≤ 99 / 100) :=
  ⟨cfTxnAmount_range d, cfDistance_range d hdist,
    cfMerchantRisk_range d hmrs0 hmrs1, cfFraudScore_range d, cfIsFraud_01 d,
    cfFraudPred_01 d, cfRiskRank_range d, ccCreditScore_range dc,
    ccAnnualIncome_range dc, ccAge_range dc, ccDti_range dc,
    ccPredictedProb_range dc⟩

/-- Witness for the C2 theorem: the draw-support hypotheses hold for the
all-zero draw record, and the theorem instantiates there. -/
theorem generator_field_ranges_witness :
    (0 ≤ cfDrawsZero.distRaw ∧ 0 ≤ cfDrawsZero.mrsRaw ∧ cfDrawsZero.mrsRaw ≤ 1) ∧
    1 ≤ (mkTransaction (fun s => s) 0 0 cfDrawsZero).txn_amount ∧
    300 ≤ (mkCCRow 0 0 0 0 ccDrawsZero).credit_score := by
  have h := generator_field_ranges (fun s => s) 0 0 cfDrawsZero (by decide)
    (by decide) (by decide) 0 0 0 0 ccDrawsZero
  exact ⟨⟨by decide, by decide, by decide⟩, h.1.1, h.2.2.2.2.2.2.2.1.1⟩

theorem genHour_length (md5uuid : String → String) (t tph : ℕ)
    (dr : ℕ → CFDraws) : (genHour md5uuid t tph dr).length = tph := by
  simp [genHour]

theorem genHour_timestamp (md5uuid : String → String) (t tph : ℕ)
    (dr : ℕ → CFDraws) :
    ∀ rec ∈ genHour md5uuid t tph dr, rec.timestamp = isoString t := by
  intro rec hrec
  simp only [genHour, List.mem_map] at hrec
  obtain ⟨k, _, rfl⟩ := hrec
  rfl

theorem cfLoop_files_some (md5uuid : String → String) (dir : List String)
    (tph : ℕ) (draws : ℕ → ℕ → CFDraws) :
    ∀ n t, (cfLoop md5uuid (some dir) tph draws t n).1 =
      (List.range n).map (fun j =>
        ⟨cfFilePath dir (t + j), genHour md5uuid (t + j) tph (draws (t + j))⟩) := by
  intro n
  induction n with
  | zero => intro t; rfl
  | succ m ih =>
    intro t
    have hshift : ∀ j : ℕ, t + 1 + j = t + (j + 1) := fun j => by omega
    simp only [cfLoop, ih (t + 1), List.range_succ_eq_map, List.map_cons,
      List.map_map, Function.comp_def, Nat.succ_eq_add_one, Nat.add_zero, hshift,
      List.singleton_append]

theorem cfLoop_stats_some (md5uuid : String → String) (dir : List String)
    (tph : ℕ) (draws : ℕ → ℕ → CFDraws) :
    ∀ n t, (cfLoop md5uuid (some dir) tph draws t n).2.files_created = n ∧
      (cfLoop md5uuid (some dir) tph draws t n).2.total_transactions = n * tph := by
  intro n
  induction n with
  | zero => intro t; exact ⟨rfl, by simp [cfLoop]⟩
  | succ m ih =>
    intro t
    obtain ⟨h1, h2⟩ := ih (t + 1)
    simp only [cfLoop]
    constructor
    · simp only [List.length_cons, List.length_nil, h1]
      omega
    · simp only [genHour_length, h2]
      ring

theorem cfLoop_none_spec (md5uuid : String → String) (tph : ℕ)
    (draws : ℕ → ℕ → CFDraws) :
    ∀ n t, (cfLoop md5uuid none tph draws t n).1 = [] ∧
      (cfLoop md5uuid none tph draws t n).2.files_created = 0 := by
  intro n
  induction n with
  | zero => intro t; exact ⟨rfl, rfl⟩
  | succ m ih =>
    intro t
    obtain ⟨h1, h2⟩ := ih (t + 1)
    simp only [cfLoop]
    exact ⟨by simp [h1], by simp [h2]⟩

/-- Claim C3: with an output directory, the card-fraud run writes, for
every hour from the start datetime to the end datetime (both at midnight of
their day) inclusive, exactly one JSON file at the partitioned path built
from that hour's calendar components, holding exactly
`transactions_per_hour` records all timestamped at that hour; and the
returned statistics satisfy `files_created` = number of hourly steps and
`total_transactions = files_created * transactions_per_hour`. -/
theorem cf_partitioned_output_spec (md5uuid : String → String)
    (dir : List String) (s e pastDays futureDays tph : ℕ)
    (draws : ℕ → ℕ → CFDraws) (todayDay : ℕ) (h : s ≤ e) :
    (CardFraud.generate_dataset md5uuid (some s) (some e) pastDays futureDays
        tph (some dir) draws todayDay).files =
      (List.range (24 * (e - s) + 1)).map (fun j =>
        ⟨cfFilePath dir (24 * s + j),
          genHour md5uuid (24 * s + j) tph (draws (24 * s + j))⟩) ∧
    (∀ j, j < 24 * (e - s) + 1 →
      ((CardFraud.generate_dataset md5uuid (some s) (some e) pastDays
          futureDays tph (some dir) draws todayDay).files.getD j
          ⟨[], []⟩).path = cfFilePath dir (24 * s + j) ∧
      ((CardFraud.generate_dataset md5uuid (some s) (some e) pastDays
          futureDays tph (some dir) draws todayDay).files.getD j
          ⟨[], []⟩).records.length = tph ∧
      ∀ rec ∈ ((CardFraud.generate_dataset md5uuid (some s) (some e) pastDays
          futureDays tph (some dir) draws todayDay).files.getD j
          ⟨[], []⟩).records, rec.timestamp = isoString (24 * s + j)) ∧
    (CardFraud.generate_dataset md5uuid (some s) (some e) pastDays futureDays
        tph (some dir) draws todayDay).stats.files_created =
      24 * (e - s) + 1 ∧
    (CardFraud.generate_dataset md5uuid (some s) (some e) pastDays futureDays
        tph (some dir) draws todayDay).stats.total_transactions =
      (CardFraud.generate_dataset md5uuid (some s) (some e) pastDays
        futureDays tph (some dir) draws todayDay).stats.files_created *
        tph := by
  have hN : cfNumHours (24 * s) (24 * e) = 24 * (e - s) + 1 := by
    unfold cfNumHours
    rw [if_pos (by omega)]
    omega
  have hfiles : (CardFraud.generate_dataset md5uuid (some s) (some e) pastDays
      futureDays tph (some dir) draws todayDay).files =
      (List.range (24 * (e - s) + 1)).map (fun j =>
        ⟨cfFilePath dir (24 * s + j),
          genHour md5uuid (24 * s + j) tph (draws (24 * s + j))⟩) := by
    show (cfLoop md5uuid (some dir) tph draws (24 * s)
      (cfNumHours (24 * s) (24 * e))).1 = _
    rw [hN, cfLoop_files_some]
  have hstats := cfLoop_stats_some md5uuid dir tph draws
    (cfNumHours (24 * s) (24 * e)) (24 * s)
  have hfc : (CardFraud.generate_dataset md5uuid (some s) (some e) pastDays
      futureDays tph (some dir) draws todayDay).stats.files_created =
      24 * (e - s) + 1 := by
    show (cfLoop md5uuid (some dir) tph draws (24 * s)
      (cfNumHours (24 * s) (24 * e))).2.files_created = _
    rw [hstats.1, hN]
  have htt : (CardFraud.generate_dataset md5uuid (some s) (some e) pastDays
      futureDays tph (some dir) draws todayDay).stats.total_transactions =
      (24 * (e - s) + 1) * tph := by
    show (cfLoop md5uuid (some dir) tph draws (24 * s)
      (cfNumHours (24 * s) (24 * e))).2.total_transactions = _
    rw [hstats.2, hN]
  refine ⟨hfiles, ?_, hfc, by rw [htt, hfc]⟩
  intro j hj
  have hget : ((CardFraud.generate_dataset md5uuid (some s) (some e) pastDays
      futureDays tph (some dir) draws todayDay).files.getD j ⟨[], []⟩) =
      ⟨cfFilePath dir (24 * s + j),
        genHour md5uuid (24 * s + j) tph (draws (24 * s + j))⟩ := by
    rw [hfiles, List.getD_eq_getElem?_getD, List.getElem?_map,
      List.getElem?_range hj]
    rfl
  rw [hget]
  exact ⟨rfl, genHour_length md5uuid _ tph _, genHour_timestamp md5uuid _ tph _⟩

/-- Witness for the C3 theorem on a one-day, one-transaction-per-hour run. -/
theorem cf_partitioned_output_spec_witness :
    (0 : ℕ) ≤ 0 ∧
    (CardFraud.generate_dataset (fun s => s) (some 0) (some 0) 0 0 1
      (some ["out"]) (fun _ _ => cfDrawsZero) 0).stats.files_created =
      24 * (0 - 0) + 1 := by
  have h := cf_partitioned_output_spec (fun s => s) ["out"] 0 0 0 0 1
    (fun _ _ => cfDrawsZero) 0 (le_refl 0)
  exact ⟨le_refl 0, h.2.2.1⟩

/-- Claim C7: a run's only persistent effect is the files below
`output_dir`.  With `output_dir = None` the card-fraud run writes no files
and reports `files_created = 0`, and the cc-application run writes no files
(returning only the DataFrame); with an output directory, every written
file path extends the output directory. -/
theorem generation_effects_confined (md5uuid : String → String)
    (sd ed : Option ℕ) (pastDays futureDays tph : ℕ)
    (draws : ℕ → ℕ → CFDraws) (todayDay : ℕ) (dir : List String)
    (n pdc fdc : ℕ) (drawsCC : ℕ → CCDraws) (todayCC : ℕ) :
    (CardFraud.generate_dataset md5uuid sd ed pastDays futureDays tph none
        draws todayDay).files = [] ∧
    (CardFraud.generate_dataset md5uuid sd ed pastDays futureDays tph none
        draws todayDay).stats.files_created = 0 ∧
    (∀ f ∈ (CardFraud.generate_dataset md5uuid sd ed pastDays futureDays tph
        (some dir) draws todayDay).files, ∃ rest, f.path = dir ++ rest) ∧
    (CCApplication.generate_dataset n pdc fdc none drawsCC todayCC).files =
      [] ∧
    (∀ f ∈ (CCApplication.generate_dataset n pdc fdc (some dir) drawsCC
        todayCC).files, ∃ rest, f.path = dir ++ rest) := by
  have hcf : ∀ startT N f, f ∈ (cfLoop md5uuid (some dir) tph draws startT N).1 →
      ∃ rest, f.path = dir ++ rest := by
    intro startT N f hf
    rw [cfLoop_files_some] at hf
    simp only [List.mem_map] at hf
    obtain ⟨j, _, rfl⟩ := hf
    exact ⟨_, rfl⟩
  refine ⟨(cfLoop_none_spec md5uuid tph draws _ _).1,
    (cfLoop_none_spec md5uuid tph draws _ _).2, hcf _ _, rfl, ?_⟩
  intro f hf
  have hf' : f ∈ ccFiles dir ((List.range n).map
      (fun i => mkCCRow i pdc fdc todayCC (drawsCC i))) := hf
  unfold ccFiles at hf'
  simp only [List.mem_map] at hf'
  obtain ⟨pd, _, rfl⟩ := hf'
  exact ⟨_, rfl⟩

/-- Witness for the C7 theorem at concrete inputs. -/
theorem generation_effects_confined_witness :
    (CardFraud.generate_dataset (fun s => s) (some 0) (some 0) 0 0 1 none
      (fun _ _ => cfDrawsZero) 0).files = [] ∧
    (CCApplication.generate_dataset 1 0 0 none (fun _ => ccDrawsZero) 0).files =
      [] := by
  have h := generation_effects_confined (fun s => s) (some 0) (some 0) 0 0 1
    (fun _ _ => cfDrawsZero) 0 ["out"] 1 0 0 (fun _ => ccDrawsZero) 0
  exact ⟨h.1, h.2.2.2.1⟩

theorem mcLoop_ids (md5uuid : String → String) (tph : ℕ)
    (dr : ℕ → ℕ → MCDraws) :
    ∀ n t, (mcLoop md5uuid tph dr t n).map MCRow.transaction_id =
      ((List.range n).map (fun j => (List.range tph).map (fun i =>
        md5uuid (isoString (t + j) ++ "_" ++ toString i)))).flatten := by
  intro n
  induction n with
  | zero => intro t; rfl
  | succ m ih =>
    intro t
    have hshift : ∀ j : ℕ, t + 1 + j = t + (j + 1) := fun j => by omega
    simp only [mcLoop, List.map_append, ih (t + 1), List.range_succ_eq_map,
      List.map_cons, List.map_map, Function.comp_def, Nat.add_zero, hshift,
      List.flatten_cons]
    rfl

/-- Claim C10: transaction ids are independent of the random seed.  The
`k`-th transaction of hour `h` carries the MD5-derived UUID of
`<ISO timestamp of h>_<k>`, for both the card-fraud and the multi-class
generators, so two runs over the same date range with different draw
families (different seeds) produce the identical id sequence. -/
theorem txn_ids_seed_independent (md5uuid : String → String)
    (dir : List String) (s e pastDays futureDays tph : ℕ)
    (draws₁ draws₂ : ℕ → ℕ → CFDraws) (todayDay : ℕ)
    (mdraws₁ mdraws₂ : ℕ → ℕ → MCDraws) (t n : ℕ) :
    (∀ t0 dr, (genHour md5uuid t0 tph dr).map CFTxn.txn_id =
      (List.range tph).map (fun k =>
        md5uuid (isoString t0 ++ "_" ++ toString k))) ∧
    ((CardFraud.generate_dataset md5uuid (some s) (some e) pastDays
        futureDays tph (some dir) draws₁ todayDay).files.map
        CFFile.records).flatten.map CFTxn.txn_id =
      ((CardFraud.generate_dataset md5uuid (some s) (some e) pastDays
        futureDays tph (some dir) draws₂ todayDay).files.map
        CFFile.records).flatten.map CFTxn.txn_id ∧
    (mcLoop md5uuid tph mdraws₁ t n).map MCRow.transaction_id =
      (mcLoop md5uuid tph mdraws₂ t n).map MCRow.transaction_id := by
  have hgen : ∀ t0 (dr : ℕ → CFDraws),
      (genHour md5uuid t0 tph dr).map CFTxn.txn_id =
        (List.range tph).map (fun k =>
          md5uuid (isoString t0 ++ "_" ++ toString k)) := by
    intro t0 dr
    simp only [genHour, List.map_map]
    rfl
  have key : ∀ dr : ℕ → ℕ → CFDraws,
      ((CardFraud.generate_dataset md5uuid (some s) (some e) pastDays
          futureDays tph (some dir) dr todayDay).files.map
          CFFile.records).flatten.map CFTxn.txn_id =
        ((List.range (cfNumHours (24 * s) (24 * e))).map (fun j =>
          (List.range tph).map (fun k =>
            md5uuid (isoString (24 * s + j) ++ "_" ++ toString k)))).flatten := by
    intro dr
    have hf : (CardFraud.generate_dataset md5uuid (some s) (some e) pastDays
        futureDays tph (some dir) dr todayDay).files =
        (List.range (cfNumHours (24 * s) (24 * e))).map (fun j =>
          ⟨cfFilePath dir (24 * s + j),
            genHour md5uuid (24 * s + j) tph (dr (24 * s + j))⟩) := by
      show (cfLoop md5uuid (some dir) tph dr (24 * s)
        (cfNumHours (24 * s) (24 * e))).1 = _
      exact cfLoop_files_some md5uuid dir tph dr _ _
    rw [hf, List.map_map, List.map_flatten, List.map_map]
    congr 1
    refine List.map_congr_left ?_
    intro j _
    exact hgen _ _
  exact ⟨hgen, by rw [key draws₁, key draws₂],
    by rw [mcLoop_ids md5uuid tph mdraws₁, mcLoop_ids md5uuid tph mdraws₂]⟩

/-- Claim C1 counterexample: the cc-application `generate_dataset` output
depends on the ambient clock.  With identical arguments (one sample,
`past_days = future_days = 0`, the same draw family) the returned DataFrame
differs between a run on epoch day 0 and a run on epoch day 1, because the
`timestamp` and `partition_date` columns are derived from `datetime.now()`
regardless of the arguments. -/
theorem cc_output_depends_on_clock :
    CCApplication.generate_dataset 1 0 0 none (fun _ => ccDrawsZero) 0 ≠
      CCApplication.generate_dataset 1 0 0 none (fun _ => ccDrawsZero) 1 := by
  decide

/-- Claim C1 (amended): under a fixed seed each generator is a
deterministic function of its arguments and the ambient clock date: the
card-fraud run with explicit `start_date` and `end_date` is entirely
independent of the clock, and every cc-application column other than
`timestamp` and `partition_date` is independent of the clock; the
`timestamp`/`partition_date` columns (and the card-fraud date range when
the date arguments are `None`) do depend on the current date. -/
theorem generation_clock_independence_amended (md5uuid : String → String)
    (s e pastDays futureDays tph : ℕ) (outDir : Option (List String))
    (draws : ℕ → ℕ → CFDraws) (today₁ today₂ : ℕ)
    (i pdc fdc t₁ t₂ : ℕ) (dc : CCDraws) :
    CardFraud.generate_dataset md5uuid (some s) (some e) pastDays futureDays
        tph outDir draws today₁ =
      CardFraud.generate_dataset md5uuid (some s) (some e) pastDays
        futureDays tph outDir draws today₂ ∧
    (mkCCRow i pdc fdc t₁ dc).application_id =
      (mkCCRow i pdc fdc t₂ dc).application_id ∧
    (mkCCRow i pdc fdc t₁ dc).region = (mkCCRow i pdc fdc t₂ dc).region ∧
    (mkCCRow i pdc fdc t₁ dc).actual_label =
      (mkCCRow i pdc fdc t₂ dc).actual_label ∧
    (mkCCRow i pdc fdc t₁ dc).predicted_label =
      (mkCCRow i pdc fdc t₂ dc).predicted_label ∧
    (mkCCRow i pdc fdc t₁ dc).predicted_probability =
      (mkCCRow i pdc fdc t₂ dc).predicted_probability ∧
    (mkCCRow i pdc fdc t₁ dc).is_valid_application =
      (mkCCRow i pdc fdc t₂ dc).is_valid_application ∧
    (mkCCRow i pdc fdc t₁ dc).credit_score =
      (mkCCRow i pdc fdc t₂ dc).credit_score ∧
    (mkCCRow i pdc fdc t₁ dc).annual_income =
      (mkCCRow i pdc fdc t₂ dc).annual_income ∧
    (mkCCRow i pdc fdc t₁ dc).age = (mkCCRow i pdc fdc t₂ dc).age ∧
    (mkCCRow i pdc fdc t₁ dc).employment_status =
      (mkCCRow i pdc fdc t₂ dc).employment_status ∧
    (mkCCRow i pdc fdc t₁ dc).years_at_job =
      (mkCCRow i pdc fdc t₂ dc).years_at_job ∧
    (mkCCRow i pdc fdc t₁ dc).debt_to_income_ratio =
      (mkCCRow i pdc fdc t₂ dc).debt_to_income_ratio ∧
    (mkCCRow i pdc fdc t₁ dc).num_credit_cards =
      (mkCCRow i pdc fdc t₂ dc).num_credit_cards ∧
    (mkCCRow i pdc fdc t₁ dc).years_credit_history =
      (mkCCRow i pdc fdc t₂ dc).years_credit_history :=
  ⟨rfl, rfl, rfl, rfl, rfl, rfl, rfl, rfl, rfl, rfl, rfl, rfl, rfl, rfl, rfl⟩
